import Mathlib

/-!
Verification of the orchestration core of the function-calling client:
the response model (client/schemas/tool_call.py), the JSON repair helper
and the orchestration loop (client/orchestrator/loop.py), and the tool
invoker boundary (client/orchestrator/loop.py together with
client/api/tool_client.py).

The Python code is shallowly embedded: stateful code becomes explicit
state passing, fallible code returns Except, and the external
collaborators (the LLM transport, the tool HTTP transport, the tool
registry fetch) are passed in as explicit scripted inputs, mirroring the
narrow interfaces the source consumes.
-/

set_option maxRecDepth 8000

/-! ## Whitespace and Python string trimming -/

/-- Whitespace characters recognised by the JSON scanner of Python's
json module; the same ASCII set is used to model the str.strip() calls
of the source (loop.py and the pydantic field validators). -/
def isJsonWs (c : Char) : Bool :=
  c == ' ' || c == '\t' || c == '\n' || c == '\r'

/-- Strip leading and trailing whitespace from a character list. -/
def pyTrimList (l : List Char) : List Char :=
  ((l.dropWhile isJsonWs).reverse.dropWhile isJsonWs).reverse

/-- Python str.strip() restricted to the ASCII whitespace set above. -/
def pyStrip (s : String) : String :=
  String.mk (pyTrimList s.data)

/-! ## JSON values, modelling the result of Python json.loads

Objects keep their key order; a duplicate key overwrites the value in
place (Python dict semantics).  Numbers keep their source lexeme: the
claims under verification never depend on numeric re-formatting. -/

inductive Json where
  | null
  | bool (b : Bool)
  | num (lexeme : String)
  | str (s : String)
  | arr (elems : List Json)
  | obj (entries : List (String × Json))

/-- Insert a key/value pair with Python dict semantics: an existing key
keeps its position and gets the new value, a new key is appended. -/
def objInsert (kvs : List (String × Json)) (k : String) (v : Json) : List (String × Json) :=
  match kvs with
  | [] => [(k, v)]
  | (k', v') :: rest => if k' == k then (k', v) :: rest else (k', v') :: objInsert rest k v

/-- Look a key up in a JSON object, modelling Python dict.get. -/
def jlookup (kvs : List (String × Json)) (k : String) : Option Json :=
  match kvs with
  | [] => none
  | (k', v) :: rest => if k' == k then some v else jlookup rest k

/-! ## JSON scanner (model of Python json.loads) -/

/-- Value of a hexadecimal digit, used for the backslash-u escape. -/
def hexVal (c : Char) : Option Nat :=
  if c.isDigit then some (c.toNat - 48)
  else if 97 ≤ c.toNat && c.toNat ≤ 102 then some (c.toNat - 87)
  else if 65 ≤ c.toNat && c.toNat ≤ 70 then some (c.toNat - 55)
  else none

/-- Scan a JSON string body after the opening quote (strict mode: raw
control characters are rejected; the standard escapes and backslash-u
are accepted; surrogate-pair merging is not modelled as no claim
exercises it). -/
def lexStr : List Char → List Char → Option (String × List Char)
  | _, [] => none
  | acc, '"' :: rest => some (String.mk acc.reverse, rest)
  | acc, '\\' :: esc =>
    match esc with
    | '"' :: r => lexStr ('"' :: acc) r
    | '\\' :: r => lexStr ('\\' :: acc) r
    | '/' :: r => lexStr ('/' :: acc) r
    | 'b' :: r => lexStr ('\x08' :: acc) r
    | 'f' :: r => lexStr ('\x0c' :: acc) r
    | 'n' :: r => lexStr ('\n' :: acc) r
    | 'r' :: r => lexStr ('\r' :: acc) r
    | 't' :: r => lexStr ('\t' :: acc) r
    | 'u' :: a :: b :: c :: d :: r =>
      match hexVal a, hexVal b, hexVal c, hexVal d with
      | some x, some y, some z, some w =>
        lexStr (Char.ofNat (((x * 16 + y) * 16 + z) * 16 + w) :: acc) r
      | _, _, _, _ => none
    | _ => none
  | acc, c :: rest => if c.toNat < 32 then none else lexStr (c :: acc) rest

/-- Integer part of a JSON number: a single zero, or a nonzero digit
followed by digits (the NUMBER_RE integer group of Python json). -/
def lexIntPart (cs : List Char) : Option (List Char × List Char) :=
  match cs with
  | '0' :: r => some (['0'], r)
  | c :: r =>
    if c.isDigit then some (c :: r.takeWhile Char.isDigit, r.dropWhile Char.isDigit)
    else none
  | [] => none

/-- Optional fraction group of a JSON number; like the regex it consumes
nothing when the group does not match completely. -/
def lexFrac (cs : List Char) : List Char × List Char :=
  match cs with
  | '.' :: r =>
    let ds := r.takeWhile Char.isDigit
    if ds.isEmpty then ([], '.' :: r) else ('.' :: ds, r.dropWhile Char.isDigit)
  | _ => ([], cs)

/-- Optional exponent group of a JSON number; like the regex it consumes
nothing when the group does not match completely. -/
def lexExp (cs : List Char) : List Char × List Char :=
  match cs with
  | c :: r =>
    if c == 'e' || c == 'E' then
      match r with
      | s :: r2 =>
        if s == '+' || s == '-' then
          let ds := r2.takeWhile Char.isDigit
          if ds.isEmpty then ([], c :: s :: r2) else (c :: s :: ds, r2.dropWhile Char.isDigit)
        else
          let ds := r.takeWhile Char.isDigit
          if ds.isEmpty then ([], c :: r) else (c :: ds, r.dropWhile Char.isDigit)
      | [] => ([], c :: r)
    else ([], c :: r)
  | [] => ([], [])

/-- Scan a JSON number (including the -Infinity constant accepted by
Python json by default). -/
def lexNum (cs : List Char) : Option (Json × List Char) :=
  match cs with
  | '-' :: 'I' :: 'n' :: 'f' :: 'i' :: 'n' :: 'i' :: 't' :: 'y' :: r =>
    some (.num ("-Infinity"), r)
  | _ =>
    let sign : List Char × List Char :=
      match cs with
      | '-' :: r => (['-'], r)
      | _ => ([], cs)
    match lexIntPart sign.2 with
    | none => none
    | some (ip, r1) =>
      let fp := lexFrac r1
      let ep := lexExp fp.2
      some (.num (String.mk (sign.1 ++ ip ++ fp.1 ++ ep.1)), ep.2)

mutual

/-- Scan one JSON value (fuel-indexed recursive descent; the fuel used
by jsonLoads strictly dominates the possible recursion depth, so fuel
exhaustion is unreachable for inputs Python would accept). -/
def parseVal : Nat → List Char → Option (Json × List Char)
  | 0, _ => none
  | Nat.succ fuel, cs =>
    match cs.dropWhile isJsonWs with
    | [] => none
    | 'n' :: 'u' :: 'l' :: 'l' :: r => some (.null, r)
    | 't' :: 'r' :: 'u' :: 'e' :: r => some (.bool true, r)
    | 'f' :: 'a' :: 'l' :: 's' :: 'e' :: r => some (.bool false, r)
    | 'N' :: 'a' :: 'N' :: r => some (.num ("NaN"), r)
    | 'I' :: 'n' :: 'f' :: 'i' :: 'n' :: 'i' :: 't' :: 'y' :: r => some (.num ("Infinity"), r)
    | '"' :: r =>
      match lexStr [] r with
      | some (s, r1) => some (.str s, r1)
      | none => none
    | '[' :: r => parseArr fuel r
    | '{' :: r => parseObj fuel r
    | c :: r => lexNum (c :: r)

/-- Scan an array body after the opening bracket. -/
def parseArr : Nat → List Char → Option (Json × List Char)
  | 0, _ => none
  | Nat.succ fuel, cs =>
    match cs.dropWhile isJsonWs with
    | ']' :: r => some (.arr [], r)
    | rest => parseElems fuel rest []

/-- Scan the comma-separated elements of a non-empty array. -/
def parseElems : Nat → List Char → List Json → Option (Json × List Char)
  | 0, _, _ => none
  | Nat.succ fuel, cs, acc =>
    match parseVal fuel cs with
    | none => none
    | some (v, r) =>
      match r.dropWhile isJsonWs with
      | ',' :: r2 => parseElems fuel r2 (acc ++ [v])
      | ']' :: r2 => some (.arr (acc ++ [v]), r2)
      | _ => none

/-- Scan an object body after the opening brace. -/
def parseObj : Nat → List Char → Option (Json × List Char)
  | 0, _ => none
  | Nat.succ fuel, cs =>
    match cs.dropWhile isJsonWs with
    | '}' :: r => some (.obj [], r)
    | rest => parseMembers fuel rest []

/-- Scan the comma-separated members of a non-empty object. -/
def parseMembers : Nat → List Char → List (String × Json) → Option (Json × List Char)
  | 0, _, _ => none
  | Nat.succ fuel, cs, acc =>
    match cs.dropWhile isJsonWs with
    | '"' :: r =>
      match lexStr [] r with
      | none => none
      | some (k, r1) =>
        match r1.dropWhile isJsonWs with
        | ':' :: r2 =>
          match parseVal fuel r2 with
          | none => none
          | some (v, r3) =>
            match r3.dropWhile isJsonWs with
            | ',' :: r4 => parseMembers fuel r4 (objInsert acc k v)
            | '}' :: r4 => some (.obj (objInsert acc k v), r4)
            | _ => none
        | _ => none
    | _ => none

end

/-- Decode one JSON document from a character list: one value and
nothing but whitespace after it. -/
def jsonLoadsCore (cs : List Char) : Except String Json :=
  match parseVal (4 * cs.length + 8) cs with
  | some (v, r) => if r.all isJsonWs then .ok v else .error ("Extra data")
  | none => .error ("Expecting value")

/-- Model of Python json.loads: leading and trailing whitespace is
tolerated, one value is decoded, and anything else left over raises
(here: returns an error; the detailed line and column information of
JSONDecodeError messages is not modelled). -/
def jsonLoads (s : String) : Except String Json :=
  jsonLoadsCore (pyTrimList s.data)

/-! ## Serialisation (model of json.dumps with ensure_ascii = False) -/

/-- Lower-case hexadecimal digit. -/
def hexDigit (n : Nat) : Char :=
  if n < 10 then Char.ofNat (48 + n) else Char.ofNat (87 + n)

/-- Escape one character for a JSON string literal. -/
def jsonEscapeChar (c : Char) : List Char :=
  if c == '"' then ['\\', '"']
  else if c == '\\' then ['\\', '\\']
  else if c == '\n' then ['\\', 'n']
  else if c == '\t' then ['\\', 't']
  else if c == '\r' then ['\\', 'r']
  else if c == '\x08' then ['\\', 'b']
  else if c == '\x0c' then ['\\', 'f']
  else if c.toNat < 32 then ['\\', 'u', '0', '0', hexDigit (c.toNat / 16), hexDigit (c.toNat % 16)]
  else [c]

/-- Escape a character list for a JSON string literal. -/
def escList : List Char → List Char
  | [] => []
  | c :: r => jsonEscapeChar c ++ escList r

/-- Render a string as a JSON string literal. -/
def dumpStr (s : String) : String :=
  String.mk ('"' :: escList s.data ++ ['"'])

mutual

/-- Model of json.dumps with ensure_ascii = False and the default
separators (elements joined by comma-space, keys and values by
colon-space), as used by loop.py when appending history entries and
serialising tool responses. -/
def dumps : Json → String
  | .null => "null"
  | .bool true => "true"
  | .bool false => "false"
  | .num lx => lx
  | .str s => dumpStr s
  | .arr xs => "[" ++ dumpsElems xs ++ "]"
  | .obj kvs => "\x7b" ++ dumpsEntries kvs ++ "\x7d"

/-- Render array elements. -/
def dumpsElems : List Json → String
  | [] => ""
  | [x] => dumps x
  | x :: xs => dumps x ++ ", " ++ dumpsElems xs

/-- Render object entries. -/
def dumpsEntries : List (String × Json) → String
  | [] => ""
  | [(k, v)] => dumpStr k ++ ": " ++ dumps v
  | (k, v) :: kvs => dumpStr k ++ ": " ++ dumps v ++ ", " ++ dumpsEntries kvs

end

/-! ## Response model (client/schemas/tool_call.py)

Each pydantic model becomes a structure plus a validation function from
a decoded JSON object.  Field validation follows the source: required
strings honour min_length 1, the field validators strip and reject
blank values, Optional fields accept an absent key or null, extra keys
are ignored (pydantic default).  The lax-mode coercions pydantic would
additionally apply (for instance string-to-bool) are not modelled; no
claim exercises them. -/

structure ToolCallV where
  tool : String
  arguments : List (String × Json)
  content : Option String
  thought : Option String

structure ToolResultV where
  tool : String
  ok : Bool
  content : Option String
  error : Option String

inductive ResponseType where
  | toolCall (c : ToolCallV)
  | toolResult (r : ToolResultV)
  | finalAnswer (content : String)
  | clarification (question : String) (missingParams : List String)

/-- The two Python exception categories that matter to the loop's
handlers: ValueError (json decode errors and pydantic validation
errors) versus everything else (AttributeError from calling .get on a
non-dict).  Message texts are abbreviated where the Python runtime
formats them. -/
inductive PyErr where
  | valueError (msg : String)
  | attributeError (msg : String)

def PyErr.message : PyErr → String
  | .valueError m => m
  | .attributeError m => m

/-- Optional[str] field with default None. -/
def fieldOptStr (kvs : List (String × Json)) (name : String) : Except PyErr (Option String) :=
  match jlookup kvs name with
  | none => .ok none
  | some .null => .ok none
  | some (.str s) => .ok (some s)
  | some _ => .error (.valueError (name ++ ": Input should be a valid string"))

/-- Required str field with min_length 1 (a length of at least one is
exactly being non-empty). -/
def fieldReqStr (kvs : List (String × Json)) (name : String) : Except PyErr String :=
  match jlookup kvs name with
  | some (.str s) =>
    if s == "" then
      .error (.valueError (name ++ ": String should have at least 1 character"))
    else .ok s
  | some _ => .error (.valueError (name ++ ": Input should be a valid string"))
  | none => .error (.valueError (name ++ ": Field required"))

/-- Literal kind discriminator with its default value: an absent key
takes the default, a present key must match. -/
def fieldKind (kvs : List (String × Json)) (expected : String) : Except PyErr Unit :=
  match jlookup kvs ("kind") with
  | none => .ok ()
  | some (.str s) =>
    if s == expected then .ok ()
    else .error (.valueError ("kind: Input should be " ++ expected))
  | some _ => .error (.valueError ("kind: Input should be a valid string"))

/-- List[str] elements check for missing_params. -/
def strElems : List Json → Except PyErr (List String)
  | [] => .ok []
  | .str s :: rest =>
    match strElems rest with
    | .ok l => .ok (s :: l)
    | .error e => .error e
  | _ :: _ => .error (.valueError ("missing_params: Input should be a valid string"))

/-- ToolCall.model_validate: kind literal, tool (min_length then the
stripping validator of ToolCall.validate_tool_name), arguments must be
a mapping, optional content and thought. -/
def ToolCallV.model_validate (kvs : List (String × Json)) : Except PyErr ResponseType := do
  let _ ← fieldKind kvs ("tool_call")
  let toolRaw ← fieldReqStr kvs ("tool")
  let tool ←
    if pyStrip toolRaw == "" then
      Except.error (PyErr.valueError ("tool: Value error, ツール名は空にできません"))
    else Except.ok (pyStrip toolRaw)
  let args ←
    match jlookup kvs ("arguments") with
    | some (.obj entries) => Except.ok entries
    | some _ => Except.error (PyErr.valueError ("arguments: Input should be a valid dictionary"))
    | none => Except.error (PyErr.valueError ("arguments: Field required"))
  let content ← fieldOptStr kvs ("content")
  let thought ← fieldOptStr kvs ("thought")
  return .toolCall ⟨tool, args, content, thought⟩

/-- ToolResult.model_validate: kind literal, tool (min_length 1, no
stripping validator), required bool ok, optional content and error. -/
def ToolResultV.model_validate (kvs : List (String × Json)) : Except PyErr ResponseType := do
  let _ ← fieldKind kvs ("tool_result")
  let tool ← fieldReqStr kvs ("tool")
  let okv ←
    match jlookup kvs ("ok") with
    | some (.bool b) => Except.ok b
    | some _ => Except.error (PyErr.valueError ("ok: Input should be a valid boolean"))
    | none => Except.error (PyErr.valueError ("ok: Field required"))
  let content ← fieldOptStr kvs ("content")
  let error ← fieldOptStr kvs ("error")
  return .toolResult ⟨tool, okv, content, error⟩

/-- FinalAnswer.model_validate: required content with min_length 1 and
the stripping validator of FinalAnswer.validate_content. -/
def FinalAnswerV.model_validate (kvs : List (String × Json)) : Except PyErr ResponseType := do
  let _ ← fieldKind kvs ("final_answer")
  let raw ← fieldReqStr kvs ("content")
  if pyStrip raw == "" then
    Except.error (PyErr.valueError ("content: Value error, 回答内容は空にできません"))
  else
    return .finalAnswer (pyStrip raw)

/-- Clarification.model_validate: required question with min_length 1
and the stripping validator of Clarification.validate_question;
missing_params defaults to the empty list when absent. -/
def ClarificationV.model_validate (kvs : List (String × Json)) : Except PyErr ResponseType := do
  let _ ← fieldKind kvs ("clarify")
  let raw ← fieldReqStr kvs ("question")
  let q ←
    if pyStrip raw == "" then
      Except.error (PyErr.valueError ("question: Value error, 質問内容は空にできません"))
    else Except.ok (pyStrip raw)
  let mp ←
    match jlookup kvs ("missing_params") with
    | none => Except.ok ([] : List String)
    | some (.arr xs) => strElems xs
    | some _ => Except.error (PyErr.valueError ("missing_params: Input should be a valid list"))
  return .clarification q mp

/-- Rendering of the kind value inside the unknown-kind error message
(Python str() in the f-string; container rendering abbreviated). -/
def pyShowKind : Option Json → String
  | none => "None"
  | some .null => "None"
  | some (.bool true) => "True"
  | some (.bool false) => "False"
  | some (.num lx) => lx
  | some (.str s) => s
  | some (.arr _) => "[...]"
  | some (.obj _) => "\x7b...\x7d"

/-- Model of parse_llm_response (tool_call.py lines 336-374): decode
the text as JSON, read the kind discriminator with dict.get (raising
AttributeError on a non-dict, faithful to data.get on a list or
scalar), and dispatch to the matching model_validate. -/
def parse_llm_response (response_text : String) : Except PyErr ResponseType :=
  match jsonLoads response_text with
  | .error e => .error (.valueError ("JSON のパースに失敗しました: " ++ e))
  | .ok (.obj kvs) =>
    match jlookup kvs ("kind") with
    | some (.str ("tool_call")) => ToolCallV.model_validate kvs
    | some (.str ("tool_result")) => ToolResultV.model_validate kvs
    | some (.str ("final_answer")) => FinalAnswerV.model_validate kvs
    | some (.str ("clarify")) => ClarificationV.model_validate kvs
    | k => .error (.valueError ("未知の kind 値です: " ++ pyShowKind k))
  | .ok _ => .error (.attributeError ("オブジェクトに get 属性がありません"))

/-- None maps to JSON null in model_dump output. -/
def optStrJson : Option String → Json
  | none => .null
  | some s => .str s

/-- ToolCall.model_dump in field declaration order. -/
def ToolCallV.model_dump (c : ToolCallV) : Json :=
  .obj [("kind", .str ("tool_call")), ("tool", .str c.tool), ("arguments", .obj c.arguments),
    ("content", optStrJson c.content), ("thought", optStrJson c.thought)]

/-- ToolResult.model_dump in field declaration order. -/
def ToolResultV.model_dump (r : ToolResultV) : Json :=
  .obj [("kind", .str ("tool_result")), ("tool", .str r.tool), ("ok", .bool r.ok),
    ("content", optStrJson r.content), ("error", optStrJson r.error)]

/-! ## JSON repair (safe_parse_json, loop.py lines 474-523) -/

/-- The backtick character. -/
def backquote : Char := Char.ofNat 96

/-- Does the text start with a triple-backtick fence marker? -/
def startsWithFence : List Char → Bool
  | a :: b :: c :: _ => a == backquote && b == backquote && c == backquote
  | _ => false

/-- Split on newline characters, modelling Python str.split of a
newline separator (an empty input yields one empty line). -/
def splitNl : List Char → List (List Char)
  | [] => [[]]
  | '\n' :: r => [] :: splitNl r
  | c :: r =>
    match splitNl r with
    | [] => [[c]]
    | l :: ls => (c :: l) :: ls

/-- Join lines with newline characters (Python str.join). -/
def joinNl : List (List Char) → List Char
  | [] => []
  | [l] => l
  | l :: ls => l ++ '\n' :: joinNl ls

/-- Code-fence stripping step of safe_parse_json: when the stripped
text opens with a fence, drop the first line, drop the last line when
it is exactly a closing fence after stripping, and strip again. -/
def fenceStrip (cs : List Char) : List Char :=
  if startsWithFence cs then
    let lines := splitNl cs
    let lines1 :=
      match lines with
      | first :: rest => if startsWithFence first then rest else lines
      | [] => lines
    let lines2 :=
      match lines1.getLast? with
      | some last =>
        if pyTrimList last == [backquote, backquote, backquote] then lines1.dropLast else lines1
      | none => lines1
    pyTrimList (joinNl lines2)
  else cs

/-- Brace balancing step of safe_parse_json: when opening braces
outnumber closing braces, append the deficit count of closing
braces. -/
def braceFix (t : List Char) : List Char :=
  if t.count '}' < t.count '{' then t ++ List.replicate (t.count '{' - t.count '}') '}' else t

/-- Parse-repair-reparse step of safe_parse_json after stripping. -/
def repairStep (t1 : List Char) : Except String String :=
  match jsonLoads (String.mk t1) with
  | .ok _ => .ok (String.mk t1)
  | .error _ =>
    match jsonLoads (String.mk (braceFix t1)) with
    | .ok _ => .ok (String.mk (braceFix t1))
    | .error e => .error ("JSONの補完に失敗しました: " ++ e)

/-- Model of safe_parse_json (loop.py lines 474-523): strip, strip a
code fence, return the text when it already parses, otherwise append
one closing brace per surplus opening brace and retry; a still-failing
parse raises ValueError. -/
def safe_parse_json (text : String) : Except String String :=
  repairStep (fenceStrip (pyTrimList text.data))

/-! ## Tool transport (client/api/tool_client.py) -/

/-- Scripted outcome of one requests.post call: a status/body response,
or one of the request exception categories the source distinguishes. -/
inductive HttpOutcome where
  | response (status : Nat) (body : String)
  | timeoutErr
  | connectionError
  | requestError (msg : String)

/-- The exception taxonomy of tool_client.py.  ToolCallError is the
only constructor the loop's execute_tool catches specifically; all
carry their message. -/
inductive ToolClientErr where
  | toolCallError (msg : String)
  | toolTimeoutError (msg : String)
  | toolNotFoundError (msg : String)
  | toolValidationError (msg : String)
  | toolServerError (msg : String)

def ToolClientErr.message : ToolClientErr → String
  | .toolCallError m => m
  | .toolTimeoutError m => m
  | .toolNotFoundError m => m
  | .toolValidationError m => m
  | .toolServerError m => m

/-- Python truthiness of a decoded JSON value (numbers are treated as
truthy except the plain zero lexeme; only error-message extraction
depends on this). -/
def jTruthy : Json → Bool
  | .null => false
  | .bool b => b
  | .num lx => lx != "0"
  | .str s => s != ""
  | .arr xs => !xs.isEmpty
  | .obj kvs => !kvs.isEmpty

/-- Python str() of a decoded JSON value, used only inside error detail
strings (container rendering abbreviated; no claim depends on it). -/
def pyStr : Json → String
  | .null => "None"
  | .bool true => "True"
  | .bool false => "False"
  | .num lx => lx
  | .str s => s
  | .arr _ => "[...]"
  | .obj _ => "\x7b...\x7d"

/-- First truthy value among the error, message and detail fields. -/
def pickErrField (kvs : List (String × Json)) : Option Json :=
  match jlookup kvs ("error") with
  | some v =>
    if jTruthy v then some v
    else
      match jlookup kvs ("message") with
      | some w =>
        if jTruthy w then some w
        else
          match jlookup kvs ("detail") with
          | some u => if jTruthy u then some u else none
          | none => none
      | none =>
        match jlookup kvs ("detail") with
        | some u => if jTruthy u then some u else none
        | none => none
  | none =>
    match jlookup kvs ("message") with
    | some w =>
      if jTruthy w then some w
      else
        match jlookup kvs ("detail") with
        | some u => if jTruthy u then some u else none
        | none => none
    | none =>
      match jlookup kvs ("detail") with
      | some u => if jTruthy u then some u else none
      | none => none

/-- Model of _extract_error_message (tool_client.py lines 315-342). -/
def extractErrMsg (status : Nat) (body : String) : String :=
  match jsonLoads body with
  | .ok (.obj kvs) =>
    match pickErrField kvs with
    | some v => pyStr v
    | none => pyStr (.obj kvs)
  | .ok j => pyStr j
  | .error _ => if body == "" then ("HTTPエラー ") ++ toString status else body

/-- Model of call_tool (tool_client.py lines 80-195): the scripted
HttpOutcome stands for the behaviour of requests.post with the given
timeout. -/
def call_tool (toolName : String) (apiBase : String) (timeout : Nat) (o : HttpOutcome) :
    Except ToolClientErr Json :=
  match o with
  | .response st body =>
    if st = 200 then
      match jsonLoads body with
      | .ok j => .ok j
      | .error e => .error (.toolCallError ("ツール呼び出し中にエラーが発生しました: " ++ e))
    else if st = 400 then
      .error (.toolValidationError
        ("ツール '" ++ toolName ++ "' の引数が不正です: " ++ extractErrMsg st body))
    else if st = 404 then
      .error (.toolNotFoundError
        ("ツール '" ++ toolName ++ "' が見つかりません: " ++ extractErrMsg st body))
    else if st = 500 then
      .error (.toolServerError ("サーバー内部エラーが発生しました: " ++ extractErrMsg st body))
    else
      .error (.toolCallError
        ("予期しないHTTPエラー（" ++ toString st ++ "）: " ++ extractErrMsg st body))
  | .timeoutErr =>
    .error (.toolTimeoutError
      ("ツール '" ++ toolName ++ "' の呼び出しがタイムアウトしました（" ++ toString timeout ++ "秒）"))
  | .connectionError =>
    .error (.toolCallError ("APIサーバー '" ++ apiBase ++ "' への接続に失敗しました"))
  | .requestError m =>
    .error (.toolCallError ("ツール呼び出し中にエラーが発生しました: " ++ m))

/-- Model of execute_tool (loop.py lines 383-442): total, always
yields a ToolResult.  ToolCallError is caught by its own handler; the
remaining ToolClientErr constructors fall to the generic exception
handler, exactly as in the source where only ToolCallError is caught
by name. -/
def execute_tool (tc : ToolCallV) (apiBase : String) (timeout : Nat) (o : HttpOutcome) :
    ToolResultV :=
  match call_tool tc.tool apiBase timeout o with
  | .ok j => ⟨tc.tool, true, some (dumps j), none⟩
  | .error (.toolCallError m) => ⟨tc.tool, false, some ("ツールの実行に失敗しました"), some m⟩
  | .error e => ⟨tc.tool, false, some ("予期しないエラーが発生しました"), some e.message⟩

/-! ## Orchestration loop (run_loop, loop.py lines 140-351)

The loop is embedded as a fuel-indexed pure function.  The two
external transports are scripted: the LLM transport maps the index of
the issued LLM call to its outcome, the tool transport maps the index
of the issued tool invocation to the outcome of requests.post.  The
outcome records the result together with the number of issued LLM
calls and tool calls, the final message history, and one record per
iteration that reached the parse phase (whether the first parse of the
raw reply succeeded and how many times JSON repair ran). -/

/-- Scripted outcome of one ollama_chat call, carrying the reply
content of the message (the source reads it from the response dict) or
one of the three OllamaError categories. -/
inductive LLMOutcome where
  | reply (content : String)
  | connectionError (detail : String)
  | timeoutErr
  | apiError (detail : String)

/-- Failures of run_loop, one constructor per raise site.  In the
source, initializationError, llmError, clarificationRequested and
unexpectedError are all raised as the base OrchestratorError carrying
the shown message (the clarification message embeds the question and
missing-parameter list); MaxIterationsReached and
InvalidResponseFormat are their own subclasses. -/
inductive LoopError where
  | initializationError (msg : String)
  | llmError (msg : String)
  | clarificationRequested (question : String) (missingParams : List String)
  | invalidResponseFormat (msg : String)
  | unexpectedError (msg : String)
  | maxIterationsReached

/-- Per-iteration record of the parse phase. -/
structure IterInfo where
  rawParseOk : Bool
  repairs : Nat

/-- Per-invocation settings of run_loop. -/
structure LoopConfig where
  model : String
  apiBase : String
  ollamaHost : String
  maxIterations : Nat
  timeout : Nat

/-- Result of one run_loop invocation together with its observable
trace. -/
structure RunOutcome where
  result : Except LoopError String
  llmCalls : Nat
  toolCalls : Nat
  messages : List (String × String)
  iterations : List IterInfo

/-- Parsing of the repaired text inside the repair fallback; any
failure of this second attempt becomes InvalidResponseFormat. -/
def reparse (fixed : String) : Except LoopError ResponseType × IterInfo :=
  match parse_llm_response fixed with
  | .ok a => (.ok a, ⟨false, 1⟩)
  | .error e2 =>
    (.error (.invalidResponseFormat ("レスポンスの補完にも失敗しました: " ++ e2.message)),
      ⟨false, 1⟩)

/-- The repair-and-reparse fallback of the parse phase: run
safe_parse_json once and parse its output; each failure inside the
fallback becomes InvalidResponseFormat. -/
def repairPhase (text : String) : Except LoopError ResponseType × IterInfo :=
  match safe_parse_json text with
  | .ok fixed => reparse fixed
  | .error m =>
    (.error (.invalidResponseFormat ("レスポンスの補完にも失敗しました: " ++ m)), ⟨false, 1⟩)

/-- The parse phase of one iteration (loop.py lines 250-269): parse
the raw reply; on ValueError run safe_parse_json once and re-parse; a
still-failing attempt becomes InvalidResponseFormat.  An
AttributeError is not caught here and falls through to the generic
handler of the iteration (modelled as unexpectedError).  The second
component records whether the first parse succeeded and how many times
safe_parse_json was invoked. -/
def parsePhase (text : String) : Except LoopError ResponseType × IterInfo :=
  match parse_llm_response text with
  | .ok a => (.ok a, ⟨true, 0⟩)
  | .error (.valueError _) => repairPhase text
  | .error (.attributeError m) => (.error (.unexpectedError m), ⟨false, 0⟩)

/-- Message of the OrchestratorError wrapping an Ollama connection
failure. -/
def connFailMsg (cfg : LoopConfig) (d : String) : String :=
  "Ollama サーバーへの接続に失敗しました: " ++ cfg.ollamaHost ++
    "\nサーバーが起動していることを確認してください。\n詳細: " ++ d

/-- The generic exception handler of the iteration adds the iteration
number to unexpected errors (loop.py lines 338-343). -/
def wrapIter (nL : Nat) : LoopError → LoopError
  | .unexpectedError m =>
    .unexpectedError ("反復 " ++ toString (nL + 1) ++ " で予期しないエラーが発生しました: " ++ m)
  | e => e

/-- The iteration loop of run_loop (loop.py lines 209-351), recursing
on the remaining iteration budget.  nL and nT count the issued LLM
calls and tool invocations. -/
def loopGo (llm : Nat → LLMOutcome) (tool : Nat → HttpOutcome) (cfg : LoopConfig) :
    Nat → List (String × String) → Nat → Nat → List IterInfo → RunOutcome
  | 0, msgs, nL, nT, iters => ⟨.error .maxIterationsReached, nL, nT, msgs, iters⟩
  | Nat.succ rem, msgs, nL, nT, iters =>
    match llm nL with
    | .connectionError d => ⟨.error (.llmError (connFailMsg cfg d)), nL + 1, nT, msgs, iters⟩
    | .timeoutErr =>
      ⟨.error (.llmError ("LLM呼び出しがタイムアウトしました (" ++ toString cfg.timeout ++ "秒)")),
        nL + 1, nT, msgs, iters⟩
    | .apiError d => ⟨.error (.llmError ("LLM呼び出しエラー: " ++ d)), nL + 1, nT, msgs, iters⟩
    | .reply text =>
      match parsePhase text with
      | (.error e, info) => ⟨.error (wrapIter nL e), nL + 1, nT, msgs, iters ++ [info]⟩
      | (.ok a, info) =>
        match a with
        | .finalAnswer c => ⟨.ok c, nL + 1, nT, msgs, iters ++ [info]⟩
        | .clarification q mp =>
          ⟨.error (.clarificationRequested q mp), nL + 1, nT, msgs, iters ++ [info]⟩
        | .toolResult _ =>
          ⟨.error (.invalidResponseFormat ("未知のレスポンスタイプ: ToolResult")),
            nL + 1, nT, msgs, iters ++ [info]⟩
        | .toolCall tc =>
          loopGo llm tool cfg rem
            (msgs ++
              [("assistant", dumps tc.model_dump),
                ("user", dumps (execute_tool tc cfg.apiBase cfg.timeout (tool nT)).model_dump)])
            (nL + 1) (nT + 1) (iters ++ [info])

/-- Model of run_loop (loop.py lines 140-351).  The initialization
step (tool registry fetch and system prompt construction, both
external collaborators) is scripted as an Except value: an exception
there becomes OrchestratorError before any iteration; on success the
history is seeded with the system prompt and the user query. -/
def run_loop (initO : Except String String) (userQuery : String) (llm : Nat → LLMOutcome)
    (tool : Nat → HttpOutcome) (cfg : LoopConfig) : RunOutcome :=
  match initO with
  | .error d => ⟨.error (.initializationError ("初期化エラー: " ++ d)), 0, 0, [], []⟩
  | .ok systemPrompt =>
    loopGo llm tool cfg cfg.maxIterations
      [("system", systemPrompt), ("user", userQuery)] 0 0 []

/-- History contribution of a list of tool-call iterations: one
assistant turn with the serialized tool call followed by one user turn
with the serialized tool result, per pair. -/
def historyOfPairs : List (ToolCallV × ToolResultV) → List (String × String)
  | [] => []
  | p :: ps =>
    ("assistant", dumps p.1.model_dump) :: ("user", dumps p.2.model_dump) :: historyOfPairs ps

/-! ## Concrete scripted inputs used by the individual properties -/

/-- The scripted final-answer reply of the C1 property. -/
def finalOkText : String := "\x7b\"kind\": \"final_answer\", \"content\": \"OK\"\x7d"

/-- The scripted clarification reply of the C3 property. -/
def clarifyCityText : String :=
  "\x7b\"kind\": \"clarify\", \"question\": \"Which city?\", \"missing_params\": [\"city\"]\x7d"

def c1Llm : Nat → LLMOutcome := fun _ => .reply finalOkText

def c1Tool : Nat → HttpOutcome := fun _ => .response 200 ("\x7b\x7d")

def c1Cfg : LoopConfig := ⟨"gemma3:4b", "http://localhost:5000", "http://localhost:11434", 10, 30⟩

def c2Text : String :=
  "\x7b\"kind\": \"tool_call\", \"tool\": \"get_weather\", \"arguments\": \x7b\"city\": \"Tokyo\"\x7d\x7d"

def c2Llm : Nat → LLMOutcome := fun _ => .reply c2Text

def c2Tool : Nat → HttpOutcome := fun _ => .response 200 ("\x7b\"temp\": 25\x7d")

def c2Cfg : LoopConfig := ⟨"gemma3:4b", "http://localhost:5000", "http://localhost:11434", 3, 30⟩

def c3Llm : Nat → LLMOutcome := fun _ => .reply clarifyCityText

def c3Tool : Nat → HttpOutcome := fun _ => .response 200 ("\x7b\x7d")

def c3Cfg : LoopConfig := ⟨"gemma3:4b", "http://localhost:5000", "http://localhost:11434", 10, 30⟩

def c7Text : String :=
  "\x7b\"kind\": \"tool_result\", \"tool\": \"get_weather\", \"ok\": true, \"content\": \"sunny\"\x7d"

def c7Llm : Nat → LLMOutcome := fun _ => .reply c7Text

def c7Tool : Nat → HttpOutcome := fun _ => .response 200 ("\x7b\x7d")

def c7Cfg : LoopConfig := ⟨"gemma3:4b", "http://localhost:5000", "http://localhost:11434", 10, 30⟩

/-! ## Helper lemmas about whitespace trimming -/

theorem dropWhile_head_false {α : Type} (p : α → Bool) :
    ∀ (l : List α) (x : α) (t : List α), List.dropWhile p l = x :: t → p x = false := by
  intro l
  induction l with
  | nil => intro x t hc; exact absurd hc (by simp)
  | cons a l ih =>
    intro x t hc
    cases hpa : p a with
    | true => rw [List.dropWhile_cons_of_pos hpa] at hc; exact ih x t hc
    | false =>
      rw [List.dropWhile_cons_of_neg (by simp [hpa])] at hc
      injection hc with h1 _
      subst h1
      exact hpa

theorem dropWhile_dropWhile {α : Type} (p : α → Bool) (l : List α) :
    List.dropWhile p (List.dropWhile p l) = List.dropWhile p l := by
  cases hd : List.dropWhile p l with
  | nil => rfl
  | cons x t =>
    have hx := dropWhile_head_false p l x t hd
    rw [List.dropWhile_cons_of_neg (by simp [hx])]

theorem dropWhile_pyTrimList (l : List Char) :
    List.dropWhile isJsonWs (pyTrimList l) = pyTrimList l := by
  unfold pyTrimList
  cases hd : List.dropWhile isJsonWs l with
  | nil => simp
  | cons x t =>
    have hx : isJsonWs x = false := dropWhile_head_false isJsonWs l x t hd
    have hxn : ¬ isJsonWs x = true := by simp [hx]
    rw [List.reverse_cons, List.dropWhile_append]
    by_cases he : (List.dropWhile isJsonWs t.reverse).isEmpty
    · rw [if_pos he]
      rw [show List.dropWhile isJsonWs [x] = [x] from List.dropWhile_cons_of_neg hxn]
      simp [hxn]
    · rw [if_neg he, List.reverse_append]
      simp only [List.reverse_cons, List.reverse_nil, List.nil_append, List.singleton_append]
      rw [List.dropWhile_cons_of_neg hxn]

theorem pyTrimList_idem (l : List Char) : pyTrimList (pyTrimList l) = pyTrimList l := by
  show (((pyTrimList l).dropWhile isJsonWs).reverse.dropWhile isJsonWs).reverse = pyTrimList l
  rw [dropWhile_pyTrimList l]
  show (((((l.dropWhile isJsonWs).reverse.dropWhile isJsonWs).reverse).reverse).dropWhile
    isJsonWs).reverse = pyTrimList l
  rw [List.reverse_reverse, dropWhile_dropWhile]
  rfl

theorem pyStrip_idem (s : String) : pyStrip (pyStrip s) = pyStrip s :=
  congrArg String.mk (pyTrimList_idem s.data)

theorem jsonLoads_pyStrip (s : String) : jsonLoads (pyStrip s) = jsonLoads s :=
  congrArg jsonLoadsCore (pyTrimList_idem s.data)

theorem parse_llm_response_pyStrip (s : String) :
    parse_llm_response (pyStrip s) = parse_llm_response s := by
  unfold parse_llm_response
  rw [jsonLoads_pyStrip]

/-! ## Helper lemmas about non-empty message strings -/

theorem ne_empty_two (a b : String) (ha : 0 < a.length) : a ++ b ≠ "" := by
  intro hc
  have h0 := congrArg String.length hc
  rw [String.length_append] at h0
  have h1 : String.length ("") = 0 := rfl
  omega

theorem ne_empty_three (a b c : String) (ha : 0 < a.length) : a ++ b ++ c ≠ "" :=
  ne_empty_two (a ++ b) c (by rw [String.length_append]; omega)

theorem ne_empty_four (a b c d : String) (ha : 0 < a.length) : a ++ b ++ c ++ d ≠ "" :=
  ne_empty_three (a ++ b) c d (by rw [String.length_append]; omega)

theorem ne_empty_five (a b c d e : String) (ha : 0 < a.length) : a ++ b ++ c ++ d ++ e ≠ "" :=
  ne_empty_four (a ++ b) c d e (by rw [String.length_append]; omega)

/-! ## Tool invoker lemmas (claim C4) -/

theorem call_tool_error_message_nonempty (toolName apiBase : String) (timeout : Nat)
    (o : HttpOutcome) (e : ToolClientErr)
    (h : call_tool toolName apiBase timeout o = .error e) : e.message ≠ "" := by
  cases o with
  | response st body =>
    simp only [call_tool] at h
    by_cases h200 : st = 200
    · rw [if_pos h200] at h
      cases hj : jsonLoads body with
      | ok j => rw [hj] at h; exact absurd h (by simp)
      | error msg =>
        rw [hj] at h
        injection h with h1
        subst h1
        exact ne_empty_two _ _ (by decide)
    · rw [if_neg h200] at h
      by_cases h400 : st = 400
      · rw [if_pos h400] at h
        injection h with h1
        subst h1
        exact ne_empty_four _ _ _ _ (by decide)
      · rw [if_neg h400] at h
        by_cases h404 : st = 404
        · rw [if_pos h404] at h
          injection h with h1
          subst h1
          exact ne_empty_four _ _ _ _ (by decide)
        · rw [if_neg h404] at h
          by_cases h500 : st = 500
          · rw [if_pos h500] at h
            injection h with h1
            subst h1
            exact ne_empty_two _ _ (by decide)
          · rw [if_neg h500] at h
            injection h with h1
            subst h1
            exact ne_empty_four _ _ _ _ (by decide)
  | timeoutErr =>
    simp only [call_tool] at h
    injection h with h1
    subst h1
    exact ne_empty_five _ _ _ _ _ (by decide)
  | connectionError =>
    simp only [call_tool] at h
    injection h with h1
    subst h1
    exact ne_empty_three _ _ _ (by decide)
  | requestError m =>
    simp only [call_tool] at h
    injection h with h1
    subst h1
    exact ne_empty_two _ _ (by decide)

/-- Claim C4: for every ToolCall and every outcome of the tool
transport, execute_tool returns a ToolResult (it is a total function,
so no exception can propagate); on success the result has ok = true
and the serialized response as content, and on any failure it has
ok = false, one of the two generic failure messages as content, and a
non-empty error detail string. -/
theorem c4_execute_tool_always_tool_result :
    (∀ (tc : ToolCallV) (apiBase : String) (timeout : Nat) (o : HttpOutcome) (j : Json),
      call_tool tc.tool apiBase timeout o = .ok j →
      execute_tool tc apiBase timeout o = ⟨tc.tool, true, some (dumps j), none⟩) ∧
    (∀ (tc : ToolCallV) (apiBase : String) (timeout : Nat) (o : HttpOutcome) (e : ToolClientErr),
      call_tool tc.tool apiBase timeout o = .error e →
      (execute_tool tc apiBase timeout o).tool = tc.tool ∧
      (execute_tool tc apiBase timeout o).ok = false ∧
      ((execute_tool tc apiBase timeout o).content = some ("ツールの実行に失敗しました") ∨
        (execute_tool tc apiBase timeout o).content = some ("予期しないエラーが発生しました")) ∧
      (execute_tool tc apiBase timeout o).error ≠ none ∧
      (execute_tool tc apiBase timeout o).error ≠ some ("")) := by
  constructor
  · intro tc apiBase timeout o j h
    unfold execute_tool
    rw [h]
  · intro tc apiBase timeout o e h
    have hmsg := call_tool_error_message_nonempty tc.tool apiBase timeout o e h
    unfold execute_tool
    rw [h]
    cases e with
    | toolCallError m =>
      refine ⟨rfl, rfl, Or.inl rfl, by simp, ?_⟩
      intro hc
      injection hc with hm
      exact hmsg hm
    | toolTimeoutError m =>
      refine ⟨rfl, rfl, Or.inr rfl, by simp, ?_⟩
      intro hc
      injection hc with hm
      exact hmsg hm
    | toolNotFoundError m =>
      refine ⟨rfl, rfl, Or.inr rfl, by simp, ?_⟩
      intro hc
      injection hc with hm
      exact hmsg hm
    | toolValidationError m =>
      refine ⟨rfl, rfl, Or.inr rfl, by simp, ?_⟩
      intro hc
      injection hc with hm
      exact hmsg hm
    | toolServerError m =>
      refine ⟨rfl, rfl, Or.inr rfl, by simp, ?_⟩
      intro hc
      injection hc with hm
      exact hmsg hm

/-- Claim C5: for any input whose stripped, fence-stripped text has n
more opening than closing braces (n at least 1) and an otherwise-valid
interior (appending n closing braces yields a parseable document while
the text itself does not parse), safe_parse_json returns exactly that
text with exactly n closing braces appended; and in every successful
run the returned text is the stripped, fence-stripped input followed by
some number of appended closing braces, so the repair never reorders or
inserts elsewhere. -/
theorem c5_safe_parse_json_appends_deficit :
    (∀ (s : String) (n : Nat) (t : List Char) (v : Json) (em : String),
      t = fenceStrip (pyTrimList s.data) →
      t.count '{' = t.count '}' + n →
      1 ≤ n →
      jsonLoads (String.mk t) = .error em →
      jsonLoads (String.mk (t ++ List.replicate n '}')) = .ok v →
      safe_parse_json s = .ok (String.mk (t ++ List.replicate n '}'))) ∧
    (∀ (s r : String), safe_parse_json s = .ok r →
      ∃ k, r = String.mk (fenceStrip (pyTrimList s.data) ++ List.replicate k '}')) := by
  constructor
  · intro s n t v em ht hcount hn herr hok
    have hfix : braceFix t = t ++ List.replicate n '}' := by
      unfold braceFix
      rw [if_pos (by omega)]
      congr 1
      congr 1
      omega
    unfold safe_parse_json repairStep
    rw [← ht, herr, hfix, hok]
  · intro s r h
    unfold safe_parse_json repairStep at h
    cases h1 : jsonLoads (String.mk (fenceStrip (pyTrimList s.data))) with
    | ok v =>
      rw [h1] at h
      injection h with hr
      exact ⟨0, by rw [← hr]; simp⟩
    | error em =>
      rw [h1] at h
      cases h2 : jsonLoads (String.mk (braceFix (fenceStrip (pyTrimList s.data)))) with
      | ok v =>
        rw [h2] at h
        injection h with hr
        subst hr
        unfold braceFix
        by_cases hc :
            (fenceStrip (pyTrimList s.data)).count '}' < (fenceStrip (pyTrimList s.data)).count '{'
        · exact ⟨_, by rw [if_pos hc]⟩
        · exact ⟨0, by rw [if_neg hc]; simp⟩
      | error e2 =>
        rw [h2] at h
        exact absurd h (by simp)

/-! ## Orchestration loop lemmas (claims C1, C2, C3, C7) -/

/-- Claim C1: a scripted transport that answers the first LLM call
with the final-answer document makes run_loop return its content "OK"
after exactly one LLM call and no tool call. -/
theorem c1_final_answer_first_reply (sysPrompt userQuery : String) (llm : Nat → LLMOutcome)
    (tool : Nat → HttpOutcome) (cfg : LoopConfig)
    (hllm : llm 0 = .reply finalOkText) (hiter : 1 ≤ cfg.maxIterations) :
    (run_loop (.ok sysPrompt) userQuery llm tool cfg).result = .ok ("OK") ∧
    (run_loop (.ok sysPrompt) userQuery llm tool cfg).llmCalls = 1 ∧
    (run_loop (.ok sysPrompt) userQuery llm tool cfg).toolCalls = 0 := by
  obtain ⟨k, hk⟩ : ∃ k, cfg.maxIterations = k + 1 := ⟨cfg.maxIterations - 1, by omega⟩
  have hp : parsePhase finalOkText = (.ok (.finalAnswer ("OK")), ⟨true, 0⟩) := by rfl
  unfold run_loop
  rw [hk]
  simp only [loopGo, hllm, hp]
  exact ⟨trivial, trivial, trivial⟩

/-- Helper for claim C2: when every scripted reply parses to a tool
call, every iteration issues one LLM call and one tool invocation and
the loop runs its remaining budget down to MaxIterationsReached. -/
theorem loopGo_all_tool_calls (llm : Nat → LLMOutcome) (tool : Nat → HttpOutcome)
    (cfg : LoopConfig)
    (hllm : ∀ i, ∃ s tc, llm i = .reply s ∧ parse_llm_response s = .ok (.toolCall tc)) :
    ∀ rem msgs nL nT iters,
      (loopGo llm tool cfg rem msgs nL nT iters).result = .error .maxIterationsReached ∧
      (loopGo llm tool cfg rem msgs nL nT iters).llmCalls = nL + rem ∧
      (loopGo llm tool cfg rem msgs nL nT iters).toolCalls = nT + rem := by
  intro rem
  induction rem with
  | zero => intro msgs nL nT iters; exact ⟨rfl, rfl, rfl⟩
  | succ k ih =>
    intro msgs nL nT iters
    obtain ⟨s, tc, hs, hparse⟩ := hllm nL
    have hp : parsePhase s = (.ok (.toolCall tc), ⟨true, 0⟩) := by
      unfold parsePhase
      rw [hparse]
    simp only [loopGo, hs, hp]
    refine ⟨(ih _ _ _ _).1, ?_, ?_⟩
    · rw [(ih _ _ _ _).2.1]; omega
    · rw [(ih _ _ _ _).2.2]; omega

/-- Claim C2: a transport that returns a valid tool_call reply on
every call makes run_loop issue exactly maxIterations LLM calls and
the same number of tool invocations and then fail with
MaxIterationsReached (3 and 3 for maxIterations = 3). -/
theorem c2_budget_exhausted_all_tool_calls (sysPrompt userQuery : String)
    (llm : Nat → LLMOutcome) (tool : Nat → HttpOutcome) (cfg : LoopConfig)
    (hllm : ∀ i, ∃ s tc, llm i = .reply s ∧ parse_llm_response s = .ok (.toolCall tc)) :
    (run_loop (.ok sysPrompt) userQuery llm tool cfg).result = .error .maxIterationsReached ∧
    (run_loop (.ok sysPrompt) userQuery llm tool cfg).llmCalls = cfg.maxIterations ∧
    (run_loop (.ok sysPrompt) userQuery llm tool cfg).toolCalls = cfg.maxIterations := by
  unfold run_loop
  have h := loopGo_all_tool_calls llm tool cfg hllm cfg.maxIterations
    [("system", sysPrompt), ("user", userQuery)] 0 0 []
  refine ⟨h.1, ?_, ?_⟩
  · rw [h.2.1]; omega
  · rw [h.2.2]; omega

/-- Claim C3: a scripted transport answering the first LLM call with
the clarify document makes run_loop fail with the clarification
failure carrying the literal question text, after exactly one LLM call
and no tool call. -/
theorem c3_clarification_is_terminal (sysPrompt userQuery : String) (llm : Nat → LLMOutcome)
    (tool : Nat → HttpOutcome) (cfg : LoopConfig)
    (hllm : llm 0 = .reply clarifyCityText) (hiter : 1 ≤ cfg.maxIterations) :
    (run_loop (.ok sysPrompt) userQuery llm tool cfg).result =
      .error (.clarificationRequested ("Which city?") ["city"]) ∧
    (run_loop (.ok sysPrompt) userQuery llm tool cfg).llmCalls = 1 ∧
    (run_loop (.ok sysPrompt) userQuery llm tool cfg).toolCalls = 0 := by
  obtain ⟨k, hk⟩ : ∃ k, cfg.maxIterations = k + 1 := ⟨cfg.maxIterations - 1, by omega⟩
  have hp : parsePhase clarifyCityText =
      (.ok (.clarification ("Which city?") ["city"]), ⟨true, 0⟩) := by rfl
  unfold run_loop
  rw [hk]
  simp only [loopGo, hllm, hp]
  exact ⟨trivial, trivial, trivial⟩

/-- Claim C7: a reply that parses to the ToolResult variant (which the
LLM must never emit) is treated as an unknown variant: the run fails
with InvalidResponseFormat after one LLM call, with no dispatch as a
tool call, final answer or clarification and no tool invocation. -/
theorem c7_tool_result_reply_rejected (sysPrompt userQuery : String) (llm : Nat → LLMOutcome)
    (tool : Nat → HttpOutcome) (cfg : LoopConfig) (s : String) (r : ToolResultV)
    (hparse : parse_llm_response s = .ok (.toolResult r))
    (hllm : llm 0 = .reply s) (hiter : 1 ≤ cfg.maxIterations) :
    (run_loop (.ok sysPrompt) userQuery llm tool cfg).result =
      .error (.invalidResponseFormat ("未知のレスポンスタイプ: ToolResult")) ∧
    (run_loop (.ok sysPrompt) userQuery llm tool cfg).llmCalls = 1 ∧
    (run_loop (.ok sysPrompt) userQuery llm tool cfg).toolCalls = 0 := by
  obtain ⟨k, hk⟩ : ∃ k, cfg.maxIterations = k + 1 := ⟨cfg.maxIterations - 1, by omega⟩
  have hp : parsePhase s = (.ok (.toolResult r), ⟨true, 0⟩) := by
    unfold parsePhase
    rw [hparse]
  unfold run_loop
  rw [hk]
  simp only [loopGo, hllm, hp]
  exact ⟨trivial, trivial, trivial⟩

/-! ## Parse-phase and history lemmas (claims C6 and C8) -/

theorem parsePhase_of_ok (text : String) (a : ResponseType)
    (h : parse_llm_response text = .ok a) : parsePhase text = (.ok a, ⟨true, 0⟩) := by
  unfold parsePhase
  rw [h]

theorem parsePhase_of_value (text m : String)
    (h : parse_llm_response text = .error (.valueError m)) :
    parsePhase text = repairPhase text := by
  unfold parsePhase
  rw [h]

theorem parsePhase_of_attr (text m : String)
    (h : parse_llm_response text = .error (.attributeError m)) :
    parsePhase text = (.error (.unexpectedError m), ⟨false, 0⟩) := by
  unfold parsePhase
  rw [h]

theorem repairPhase_of_ok (text fixed : String) (h : safe_parse_json text = .ok fixed) :
    repairPhase text = reparse fixed := by
  unfold repairPhase
  rw [h]

theorem repairPhase_of_err (text m2 : String) (h : safe_parse_json text = .error m2) :
    repairPhase text =
      (.error (.invalidResponseFormat ("レスポンスの補完にも失敗しました: " ++ m2)), ⟨false, 1⟩) := by
  unfold repairPhase
  rw [h]

theorem reparse_of_ok (fixed : String) (a : ResponseType)
    (h : parse_llm_response fixed = .ok a) : reparse fixed = (.ok a, ⟨false, 1⟩) := by
  unfold reparse
  rw [h]

theorem reparse_of_err (fixed : String) (e2 : PyErr) (h : parse_llm_response fixed = .error e2) :
    reparse fixed =
      (.error (.invalidResponseFormat ("レスポンスの補完にも失敗しました: " ++ e2.message)),
        ⟨false, 1⟩) := by
  unfold reparse
  rw [h]

/-- Helper: the repair fallback always records exactly one repair. -/
theorem repairPhase_info (text : String) : (repairPhase text).2 = ⟨false, 1⟩ := by
  cases hs : safe_parse_json text with
  | ok fixed =>
    rw [repairPhase_of_ok text fixed hs]
    cases hp : parse_llm_response fixed with
    | ok a => rw [reparse_of_ok fixed a hp]
    | error e2 => rw [reparse_of_err fixed e2 hp]
  | error m2 => rw [repairPhase_of_err text m2 hs]

/-- Helper: every parse-phase record satisfies the repair policy. -/
theorem parsePhase_info_sound (text : String) :
    (parsePhase text).2.repairs ≤ 1 ∧
    ((parsePhase text).2.rawParseOk = true → (parsePhase text).2.repairs = 0) := by
  cases hpr : parse_llm_response text with
  | ok a =>
    rw [parsePhase_of_ok text a hpr]
    exact ⟨by simp, fun _ => rfl⟩
  | error e =>
    cases e with
    | valueError m =>
      rw [parsePhase_of_value text m hpr]
      have h := repairPhase_info text
      refine ⟨?_, ?_⟩
      · rw [h]
      · rw [h]
        simp
    | attributeError m =>
      rw [parsePhase_of_attr text m hpr]
      exact ⟨by simp, by simp⟩

/-- Helper: the repair policy holds for every iteration record the
loop accumulates. -/
theorem loopGo_iterations_inv (llm : Nat → LLMOutcome) (tool : Nat → HttpOutcome)
    (cfg : LoopConfig) :
    ∀ rem msgs nL nT iters,
      (∀ info ∈ iters, info.repairs ≤ 1 ∧ (info.rawParseOk = true → info.repairs = 0)) →
      ∀ info ∈ (loopGo llm tool cfg rem msgs nL nT iters).iterations,
        info.repairs ≤ 1 ∧ (info.rawParseOk = true → info.repairs = 0) := by
  intro rem
  induction rem with
  | zero => intro msgs nL nT iters hin; exact hin
  | succ k ih =>
    intro msgs nL nT iters hin
    cases hl : llm nL with
    | connectionError d => simp only [loopGo, hl]; exact hin
    | timeoutErr => simp only [loopGo, hl]; exact hin
    | apiError d => simp only [loopGo, hl]; exact hin
    | reply text =>
      have hps := parsePhase_info_sound text
      rcases hpp : parsePhase text with ⟨res, info⟩
      rw [hpp] at hps
      have hin' : ∀ i ∈ iters ++ [info],
          i.repairs ≤ 1 ∧ (i.rawParseOk = true → i.repairs = 0) := by
        intro i hmem
        rcases List.mem_append.mp hmem with hmem | hmem
        · exact hin i hmem
        · rw [List.mem_singleton.mp hmem]
          exact hps
      cases res with
      | error e => simp only [loopGo, hl, hpp]; exact hin'
      | ok a =>
        cases a with
        | finalAnswer c => simp only [loopGo, hl, hpp]; exact hin'
        | clarification q mp => simp only [loopGo, hl, hpp]; exact hin'
        | toolResult r => simp only [loopGo, hl, hpp]; exact hin'
        | toolCall tc =>
          simp only [loopGo, hl, hpp]
          exact ih _ _ _ _ hin'

/-- Claim C6: JSON repair runs at most once per iteration and only
after a first parse attempt on the raw reply has failed with a
ValueError; a reply that parses on the first attempt never triggers
repair; a parse that still fails after the single repair attempt makes
the iteration abort with InvalidResponseFormat; and every iteration
record of every run obeys the at-most-once / never-after-success
policy. -/
theorem c6_repair_once_after_failure :
    (∀ text, (parsePhase text).2.repairs ≤ 1) ∧
    (∀ text a, parse_llm_response text = .ok a → parsePhase text = (.ok a, ⟨true, 0⟩)) ∧
    (∀ text, 1 ≤ (parsePhase text).2.repairs →
      ∃ m, parse_llm_response text = .error (.valueError m)) ∧
    (∀ text e, (parsePhase text).1 = .error e → (parsePhase text).2.repairs = 1 →
      ∃ m, e = .invalidResponseFormat m) ∧
    (∀ (initO : Except String String) (q : String) (llm : Nat → LLMOutcome)
      (tool : Nat → HttpOutcome) (cfg : LoopConfig) (info : IterInfo),
      info ∈ (run_loop initO q llm tool cfg).iterations →
      info.repairs ≤ 1 ∧ (info.rawParseOk = true → info.repairs = 0)) := by
  refine ⟨fun text => (parsePhase_info_sound text).1, ?_, ?_, ?_, ?_⟩
  · intro text a h
    exact parsePhase_of_ok text a h
  · intro text h
    cases hpr : parse_llm_response text with
    | ok a =>
      rw [parsePhase_of_ok text a hpr] at h
      simp at h
    | error e0 =>
      cases e0 with
      | valueError m => exact ⟨m, rfl⟩
      | attributeError m =>
        rw [parsePhase_of_attr text m hpr] at h
        simp at h
  · intro text e h1 h2
    cases hpr : parse_llm_response text with
    | ok a =>
      rw [parsePhase_of_ok text a hpr] at h1
      simp at h1
    | error e0 =>
      cases e0 with
      | valueError m =>
        rw [parsePhase_of_value text m hpr] at h1
        cases hs : safe_parse_json text with
        | ok fixed =>
          rw [repairPhase_of_ok text fixed hs] at h1
          cases hpr2 : parse_llm_response fixed with
          | ok a =>
            rw [reparse_of_ok fixed a hpr2] at h1
            simp at h1
          | error e2 =>
            rw [reparse_of_err fixed e2 hpr2] at h1
            simp at h1
            exact ⟨_, h1.symm⟩
        | error m2 =>
          rw [repairPhase_of_err text m2 hs] at h1
          simp at h1
          exact ⟨_, h1.symm⟩
      | attributeError m =>
        rw [parsePhase_of_attr text m hpr] at h2
        simp at h2
  · intro initO q llm tool cfg info hmem
    cases initO with
    | error d => simp [run_loop] at hmem
    | ok sysPrompt =>
      exact loopGo_iterations_inv llm tool cfg cfg.maxIterations _ 0 0 [] (by simp) info hmem

/-- Helper for claim C8: from any starting history, the loop only ever
appends assistant/user pairs of serialized tool call and tool result,
one pair per tool invocation. -/
theorem loopGo_messages_decompose (llm : Nat → LLMOutcome) (tool : Nat → HttpOutcome)
    (cfg : LoopConfig) :
    ∀ rem msgs nL nT iters, ∃ pairs : List (ToolCallV × ToolResultV),
      (loopGo llm tool cfg rem msgs nL nT iters).messages = msgs ++ historyOfPairs pairs ∧
      (loopGo llm tool cfg rem msgs nL nT iters).toolCalls = nT + pairs.length := by
  intro rem
  induction rem with
  | zero =>
    intro msgs nL nT iters
    exact ⟨[], by simp [loopGo, historyOfPairs], by simp [loopGo]⟩
  | succ k ih =>
    intro msgs nL nT iters
    cases hl : llm nL with
    | connectionError d =>
      exact ⟨[], by simp [loopGo, hl, historyOfPairs], by simp [loopGo, hl]⟩
    | timeoutErr =>
      exact ⟨[], by simp [loopGo, hl, historyOfPairs], by simp [loopGo, hl]⟩
    | apiError d =>
      exact ⟨[], by simp [loopGo, hl, historyOfPairs], by simp [loopGo, hl]⟩
    | reply text =>
      rcases hpp : parsePhase text with ⟨res, info⟩
      cases res with
      | error e =>
        exact ⟨[], by simp [loopGo, hl, hpp, historyOfPairs], by simp [loopGo, hl, hpp]⟩
      | ok a =>
        cases a with
        | finalAnswer c =>
          exact ⟨[], by simp [loopGo, hl, hpp, historyOfPairs], by simp [loopGo, hl, hpp]⟩
        | clarification q mp =>
          exact ⟨[], by simp [loopGo, hl, hpp, historyOfPairs], by simp [loopGo, hl, hpp]⟩
        | toolResult r =>
          exact ⟨[], by simp [loopGo, hl, hpp, historyOfPairs], by simp [loopGo, hl, hpp]⟩
        | toolCall tc =>
          obtain ⟨pairs, hmsg, hcnt⟩ :=
            ih
              (msgs ++
                [("assistant", dumps tc.model_dump),
                  ("user", dumps (execute_tool tc cfg.apiBase cfg.timeout (tool nT)).model_dump)])
              (nL + 1) (nT + 1) (iters ++ [info])
          refine ⟨(tc, execute_tool tc cfg.apiBase cfg.timeout (tool nT)) :: pairs, ?_, ?_⟩
          · simp only [loopGo, hl, hpp]
            rw [hmsg]
            simp [historyOfPairs]
          · simp only [loopGo, hl, hpp]
            rw [hcnt]
            simp
            omega

/-- Claim C8: in every run the history starts as exactly the
system-prompt message followed by the user query, the first message is
always the system-role message, and what follows is exactly one
assistant-role serialized tool call followed by one user-role
serialized tool result per tool invocation — the functional loop never
changes earlier messages, it only appends these pairs. -/
theorem c8_history_invariant (sysPrompt userQuery : String) (llm : Nat → LLMOutcome)
    (tool : Nat → HttpOutcome) (cfg : LoopConfig) :
    ∃ pairs : List (ToolCallV × ToolResultV),
      (run_loop (.ok sysPrompt) userQuery llm tool cfg).messages =
        ("system", sysPrompt) :: ("user", userQuery) :: historyOfPairs pairs ∧
      pairs.length = (run_loop (.ok sysPrompt) userQuery llm tool cfg).toolCalls ∧
      (run_loop (.ok sysPrompt) userQuery llm tool cfg).messages.head? =
        some ("system", sysPrompt) := by
  obtain ⟨pairs, hmsg, hcnt⟩ := loopGo_messages_decompose llm tool cfg cfg.maxIterations
    [("system", sysPrompt), ("user", userQuery)] 0 0 []
  refine ⟨pairs, ?_, ?_, ?_⟩
  · unfold run_loop
    rw [hmsg]
    rfl
  · unfold run_loop
    rw [hcnt]
    omega
  · unfold run_loop
    rw [hmsg]
    rfl

/-! ## Response-model parse lemmas (claims C9 and C10) -/

/-- Claim C9 counterexample: parse_llm_response does not keep the tool
name exactly as given — the validate_tool_name validator strips
surrounding whitespace, so the tool name " get_weather " comes back as
"get_weather". -/
theorem c9_counterexample_tool_name_stripped :
    parse_llm_response
        ("\x7b\"kind\": \"tool_call\", \"tool\": \" get_weather \", \"arguments\": \x7b\x7d\x7d") =
      .ok (.toolCall ⟨"get_weather", [], none, none⟩) ∧
    ("get_weather" : String) ≠ " get_weather " := by
  exact ⟨rfl, by decide⟩

/-- Claim C9 (amended): for well-formed ToolCall-shaped JSON,
parse_llm_response returns a ToolCall whose arguments are exactly as
given and whose tool is the given name with surrounding whitespace
stripped; and parsing is insensitive to surrounding whitespace of the
document. -/
theorem c9_parse_tool_call_amended :
    (∀ (s : String) (kvs : List (String × Json)) (toolName : String)
      (args : List (String × Json)) (content thought : Option String),
      jsonLoads s = .ok (.obj kvs) →
      jlookup kvs ("kind") = some (.str ("tool_call")) →
      jlookup kvs ("tool") = some (.str toolName) →
      pyStrip toolName ≠ "" →
      jlookup kvs ("arguments") = some (.obj args) →
      fieldOptStr kvs ("content") = .ok content →
      fieldOptStr kvs ("thought") = .ok thought →
      parse_llm_response s = .ok (.toolCall ⟨pyStrip toolName, args, content, thought⟩)) ∧
    (∀ s : String, parse_llm_response s = parse_llm_response (pyStrip s)) := by
  constructor
  · intro s kvs toolName args content thought hload hkind htool hstrip hargs hcontent hthought
    have htn : toolName ≠ "" := fun h => hstrip (by rw [h]; rfl)
    have htnb : (toolName == "") = false := by simp [htn]
    have hstripb : (pyStrip toolName == "") = false := by simp [hstrip]
    simp only [parse_llm_response, hload, ToolCallV.model_validate, fieldKind, hkind,
      fieldReqStr, htool, htnb, hargs, hcontent, hthought, hstripb, bind, Except.bind]
    simp [hstripb, pure, Except.pure]
  · intro s
    exact (parse_llm_response_pyStrip s).symm

/-- Claim C10: a clarify object with a non-empty question and no
missing_params key at all parses successfully, with missing_params
defaulting to the empty list. -/
theorem c10_missing_params_defaults_to_empty (s : String) (kvs : List (String × Json))
    (q : String)
    (hload : jsonLoads s = .ok (.obj kvs))
    (hkind : jlookup kvs ("kind") = some (.str ("clarify")))
    (hq : jlookup kvs ("question") = some (.str q))
    (hqs : pyStrip q ≠ "")
    (hmp : jlookup kvs ("missing_params") = none) :
    parse_llm_response s = .ok (.clarification (pyStrip q) []) := by
  have hqn : q ≠ "" := fun h => hqs (by rw [h]; rfl)
  have hqb : (q == "") = false := by simp [hqn]
  have hqsb : (pyStrip q == "") = false := by simp [hqs]
  simp only [parse_llm_response, hload, ClarificationV.model_validate, fieldKind, hkind,
    fieldReqStr, hq, hqb, hqsb, hmp, bind, Except.bind]
  simp [hqsb, pure, Except.pure]

/-! ## Witnesses instantiating the properties at concrete inputs -/

theorem c1_final_answer_first_reply_witness :
    (run_loop (.ok ("prompt")) ("query") c1Llm c1Tool c1Cfg).result = .ok ("OK") ∧
    (run_loop (.ok ("prompt")) ("query") c1Llm c1Tool c1Cfg).llmCalls = 1 ∧
    (run_loop (.ok ("prompt")) ("query") c1Llm c1Tool c1Cfg).toolCalls = 0 :=
  c1_final_answer_first_reply ("prompt") ("query") c1Llm c1Tool c1Cfg rfl (by decide)

theorem c2_budget_exhausted_all_tool_calls_witness :
    (run_loop (.ok ("prompt")) ("query") c2Llm c2Tool c2Cfg).result =
      .error .maxIterationsReached ∧
    (run_loop (.ok ("prompt")) ("query") c2Llm c2Tool c2Cfg).llmCalls = 3 ∧
    (run_loop (.ok ("prompt")) ("query") c2Llm c2Tool c2Cfg).toolCalls = 3 :=
  c2_budget_exhausted_all_tool_calls ("prompt") ("query") c2Llm c2Tool c2Cfg
    (fun _ => ⟨c2Text, ⟨("get_weather"), [("city", Json.str ("Tokyo"))], none, none⟩, rfl, rfl⟩)

theorem c3_clarification_is_terminal_witness :
    (run_loop (.ok ("prompt")) ("query") c3Llm c3Tool c3Cfg).result =
      .error (.clarificationRequested ("Which city?") (["city"])) ∧
    (run_loop (.ok ("prompt")) ("query") c3Llm c3Tool c3Cfg).llmCalls = 1 ∧
    (run_loop (.ok ("prompt")) ("query") c3Llm c3Tool c3Cfg).toolCalls = 0 :=
  c3_clarification_is_terminal ("prompt") ("query") c3Llm c3Tool c3Cfg rfl (by decide)

theorem c4_execute_tool_always_tool_result_witness :
    execute_tool ⟨("get_weather"), [], none, none⟩ ("http://localhost:5000") 30
        (HttpOutcome.response 200 ("\x7b\"temp\": 25\x7d")) =
      ⟨("get_weather"), true, some (dumps (Json.obj [("temp", Json.num ("25"))])), none⟩ ∧
    ((execute_tool ⟨("get_weather"), [], none, none⟩ ("http://localhost:5000") 30
        HttpOutcome.timeoutErr).tool = ("get_weather") ∧
      (execute_tool ⟨("get_weather"), [], none, none⟩ ("http://localhost:5000") 30
        HttpOutcome.timeoutErr).ok = false ∧
      ((execute_tool ⟨("get_weather"), [], none, none⟩ ("http://localhost:5000") 30
          HttpOutcome.timeoutErr).content = some ("ツールの実行に失敗しました") ∨
        (execute_tool ⟨("get_weather"), [], none, none⟩ ("http://localhost:5000") 30
          HttpOutcome.timeoutErr).content = some ("予期しないエラーが発生しました")) ∧
      (execute_tool ⟨("get_weather"), [], none, none⟩ ("http://localhost:5000") 30
        HttpOutcome.timeoutErr).error ≠ none ∧
      (execute_tool ⟨("get_weather"), [], none, none⟩ ("http://localhost:5000") 30
        HttpOutcome.timeoutErr).error ≠ some ("")) :=
  ⟨c4_execute_tool_always_tool_result.1 ⟨("get_weather"), [], none, none⟩
      ("http://localhost:5000") 30 (HttpOutcome.response 200 ("\x7b\"temp\": 25\x7d"))
      (Json.obj [("temp", Json.num ("25"))]) rfl,
    c4_execute_tool_always_tool_result.2 ⟨("get_weather"), [], none, none⟩
      ("http://localhost:5000") 30 HttpOutcome.timeoutErr
      (ToolClientErr.toolTimeoutError
        ("ツール 'get_weather' の呼び出しがタイムアウトしました（30秒）")) rfl⟩

theorem c5_safe_parse_json_appends_deficit_witness :
    safe_parse_json ("\x7b\"a\": \x7b\"b\": 1") = .ok ("\x7b\"a\": \x7b\"b\": 1\x7d\x7d") :=
  c5_safe_parse_json_appends_deficit.1 ("\x7b\"a\": \x7b\"b\": 1") 2
    (fenceStrip (pyTrimList (String.data ("\x7b\"a\": \x7b\"b\": 1"))))
    (Json.obj [("a", Json.obj [("b", Json.num ("1"))])]) ("Expecting value")
    rfl (by decide) (by decide) rfl rfl

theorem c6_repair_once_after_failure_witness :
    parsePhase ("\x7b\"kind\": \"final_answer\", \"content\": \"hi\"\x7d") =
      (.ok (.finalAnswer ("hi")), ⟨true, 0⟩) ∧
    (parsePhase ("not json")).2.repairs ≤ 1 :=
  ⟨c6_repair_once_after_failure.2.1 ("\x7b\"kind\": \"final_answer\", \"content\": \"hi\"\x7d")
      (.finalAnswer ("hi")) rfl,
    c6_repair_once_after_failure.1 ("not json")⟩

theorem c7_tool_result_reply_rejected_witness :
    (run_loop (.ok ("prompt")) ("query") c7Llm c7Tool c7Cfg).result =
      .error (.invalidResponseFormat ("未知のレスポンスタイプ: ToolResult")) ∧
    (run_loop (.ok ("prompt")) ("query") c7Llm c7Tool c7Cfg).llmCalls = 1 ∧
    (run_loop (.ok ("prompt")) ("query") c7Llm c7Tool c7Cfg).toolCalls = 0 :=
  c7_tool_result_reply_rejected ("prompt") ("query") c7Llm c7Tool c7Cfg c7Text
    ⟨("get_weather"), true, some ("sunny"), none⟩ rfl rfl (by decide)

theorem c9_parse_tool_call_amended_witness :
    parse_llm_response
        ("\x7b\"kind\": \"tool_call\", \"tool\": \"get_weather\", \"arguments\": \x7b\"city\": \"Tokyo\"\x7d\x7d") =
      .ok (.toolCall ⟨("get_weather"), [("city", Json.str ("Tokyo"))], none, none⟩) :=
  c9_parse_tool_call_amended.1
    ("\x7b\"kind\": \"tool_call\", \"tool\": \"get_weather\", \"arguments\": \x7b\"city\": \"Tokyo\"\x7d\x7d")
    [("kind", Json.str ("tool_call")), ("tool", Json.str ("get_weather")),
      ("arguments", Json.obj [("city", Json.str ("Tokyo"))])]
    ("get_weather") [("city", Json.str ("Tokyo"))] none none
    rfl rfl rfl (by decide) rfl rfl rfl

theorem c10_missing_params_defaults_to_empty_witness :
    parse_llm_response ("\x7b\"kind\": \"clarify\", \"question\": \"Which city?\"\x7d") =
      .ok (.clarification ("Which city?") []) :=
  c10_missing_params_defaults_to_empty
    ("\x7b\"kind\": \"clarify\", \"question\": \"Which city?\"\x7d")
    [("kind", Json.str ("clarify")), ("question", Json.str ("Which city?"))]
    ("Which city?") rfl rfl rfl (by decide) rfl
